import Mathlib

/-!
Random classic-BPF program generator (`net/bpf.c`)

A shallow embedding of `gen_bpf_code` and `gen_bpf`.

* The process-wide `rand()` stream is an explicit infinite stream of
  non-negative draws (`Rng`); every call of `rand()` takes the head of the
  stream and continues with its tail.
* Machine integers are natural numbers with explicit truncation
  (`u8`, `u16`, `u32`) wherever the source stores into a fixed-width field.
* `malloc` is an oracle: the result of each of the two call sites is an input
  of `gen_bpf` (`none` is `NULL`).
* `BPF_MAXINSNS`, `struct sock_filter`, `struct sock_fprog` and
  `sizeof (struct sock_fprog)` come from `<linux/filter.h>`, which is not part
  of the source tree: the two constants are parameters, the two records follow
  the field widths used by the code.
* `SKF_AD_MAX` is a parameter as well: lines 20-22 define it as `56` only when
  `<linux/filter.h>` has not defined it, and current headers define it as `64`.
  `SKF_AD_OFF` is `-0x1000` in the header and in the fallback of lines 16-18.
* The operands of `|` in `gen_bpf_code` are evaluated left to right.
-/

namespace Bpf

/-! ## Random source -/

/-- The stream of values that successive calls of `rand()` return. -/
abbrev Rng := Nat → Nat

/-- The stream after `n` calls of `rand()`. -/
def Rng.drop (g : Rng) (n : Nat) : Rng := fun i => g (i + n)

/-- One call of `rand()`: the value returned and the remaining stream. -/
def rand (g : Rng) : Nat × Rng := (g 0, g.drop 1)

/-- A stream that starts with the listed draws and continues with zeros. -/
def Rng.ofList (l : List Nat) : Rng := fun i => l.getD i 0

/-! ## Fixed-width casts -/

/-- The cast `(uint8_t) x`. -/
def u8 (x : Nat) : Nat := x % 2 ^ 8

/-- The cast `(uint16_t) x`. -/
def u16 (x : Nat) : Nat := x % 2 ^ 16

/-- The cast `(uint32_t) x` of a non-negative value. -/
def u32 (x : Nat) : Nat := x % 2 ^ 32

/-- The cast `(uint32_t) x` of a signed `int` value. -/
def u32_of_int (x : Int) : Nat := (x % 2 ^ 32).toNat

/-! ## Constants and field tables (lines 16-108) -/

def SKF_AD_OFF : Int := -0x1000

def BPF_CLASS (code : Nat) : Nat := code &&& 0x07
def BPF_LD : Nat := 0x00
def BPF_LDX : Nat := 0x01
def BPF_ST : Nat := 0x02
def BPF_STX : Nat := 0x03
def BPF_ALU : Nat := 0x04
def BPF_JMP : Nat := 0x05
def BPF_RET : Nat := 0x06
def BPF_MISC : Nat := 0x07

def bpf_class_vars : List Nat :=
  [BPF_LD, BPF_LDX, BPF_ST, BPF_STX, BPF_ALU, BPF_JMP, BPF_RET, BPF_MISC]

def BPF_SIZE (code : Nat) : Nat := code &&& 0x18
def BPF_W : Nat := 0x00
def BPF_H : Nat := 0x08
def BPF_B : Nat := 0x10

def bpf_size_vars : List Nat := [BPF_W, BPF_H, BPF_B]

def BPF_MODE (code : Nat) : Nat := code &&& 0xe0
def BPF_IMM : Nat := 0x00
def BPF_ABS : Nat := 0x20
def BPF_IND : Nat := 0x40
def BPF_MEM : Nat := 0x60
def BPF_LEN : Nat := 0x80
def BPF_MSH : Nat := 0xa0

def bpf_mode_vars : List Nat :=
  [BPF_IMM, BPF_ABS, BPF_IND, BPF_MEM, BPF_LEN, BPF_MSH]

def BPF_OP (code : Nat) : Nat := code &&& 0xf0
def BPF_ADD : Nat := 0x00
def BPF_SUB : Nat := 0x10
def BPF_MUL : Nat := 0x20
def BPF_DIV : Nat := 0x30
def BPF_OR : Nat := 0x40
def BPF_AND : Nat := 0x50
def BPF_LSH : Nat := 0x60
def BPF_RSH : Nat := 0x70
def BPF_NEG : Nat := 0x80
def BPF_MOD : Nat := 0x90
def BPF_XOR : Nat := 0xa0

def bpf_alu_op_vars : List Nat :=
  [BPF_ADD, BPF_SUB, BPF_MUL, BPF_DIV, BPF_OR, BPF_AND, BPF_LSH, BPF_RSH,
   BPF_NEG, BPF_MOD, BPF_XOR]

def BPF_JA : Nat := 0x00
def BPF_JEQ : Nat := 0x10
def BPF_JGT : Nat := 0x20
def BPF_JGE : Nat := 0x30
def BPF_JSET : Nat := 0x40

def bpf_jmp_op_vars : List Nat := [BPF_JA, BPF_JEQ, BPF_JGT, BPF_JGE, BPF_JSET]

def BPF_SRC (code : Nat) : Nat := code &&& 0x08
def BPF_K : Nat := 0x00
def BPF_X : Nat := 0x08

def bpf_src_vars : List Nat := [BPF_K, BPF_X]

def BPF_RVAL (code : Nat) : Nat := code &&& 0x18
def BPF_A : Nat := 0x10

def bpf_ret_vars : List Nat := [BPF_A, BPF_K, BPF_X]

def BPF_MISCOP (code : Nat) : Nat := code &&& 0xf8
def BPF_TAX : Nat := 0x00
def BPF_TXA : Nat := 0x80

def bpf_misc_vars : List Nat := [BPF_TAX, BPF_TXA]

/-! ## Opcode synthesis (lines 110-146) -/

/-- The table element `vars[r % ARRAY_SIZE(vars)]` selected by a draw `r`. -/
def bpf_pick (vars : List Nat) (h : 0 < vars.length) (r : Nat) : Nat :=
  vars.get ⟨r % vars.length, Nat.mod_lt r h⟩

/-- The source's `bpf_rand(type)`: one draw, reduced modulo the table size,
indexes the table. -/
def bpf_rand (vars : List Nat) (h : 0 < vars.length) (g : Rng) : Nat × Rng :=
  (bpf_pick vars h (rand g).1, (rand g).2)

/-- The class switch of `gen_bpf_code` (lines 115-139): the class draw, then the
sub-field draws of that class, all OR-ed into the 16-bit `ret`. -/
def gen_bpf_code_fields (g : Rng) : Nat × Rng :=
  let c := bpf_rand bpf_class_vars (by decide) g
  let ret := c.1
  if ret = BPF_LD ∨ ret = BPF_LDX ∨ ret = BPF_ST ∨ ret = BPF_STX then
    let s := bpf_rand bpf_size_vars (by decide) c.2
    let m := bpf_rand bpf_mode_vars (by decide) s.2
    let x := bpf_rand bpf_src_vars (by decide) m.2
    (u16 (ret ||| (s.1 ||| m.1 ||| x.1)), x.2)
  else if ret = BPF_ALU then
    let o := bpf_rand bpf_alu_op_vars (by decide) c.2
    let x := bpf_rand bpf_src_vars (by decide) o.2
    (u16 (ret ||| (o.1 ||| x.1)), x.2)
  else if ret = BPF_JMP then
    let o := bpf_rand bpf_jmp_op_vars (by decide) c.2
    let x := bpf_rand bpf_src_vars (by decide) o.2
    (u16 (ret ||| (o.1 ||| x.1)), x.2)
  else if ret = BPF_RET then
    let v := bpf_rand bpf_ret_vars (by decide) c.2
    (u16 (ret ||| v.1), v.2)
  else if ret = BPF_MISC then
    let v := bpf_rand bpf_misc_vars (by decide) c.2
    (u16 (ret ||| v.1), v.2)
  else
    (u16 (rand c.2).1, (rand c.2).2)

/-- The corruption step of `gen_bpf_code` (lines 141-145). -/
def gen_bpf_code_fuzz (ret : Nat) (g : Rng) : Nat × Rng :=
  let coin := rand g
  if coin.1 % 10 = 0 then
    (u16 (ret ||| u16 (rand coin.2).1), (rand coin.2).2)
  else
    (ret, coin.2)

/-- The source's `gen_bpf_code`: the opcode returned and the remaining stream. -/
def gen_bpf_code (g : Rng) : Nat × Rng :=
  gen_bpf_code_fuzz (gen_bpf_code_fields g).1 (gen_bpf_code_fields g).2

/-! ## Program assembly (lines 148-205) -/

/-- One instruction, `struct sock_filter` of `<linux/filter.h>`:
a 16-bit `code`, 8-bit `jt` and `jf`, and a 32-bit `k`. -/
structure sock_filter where
  code : Nat
  jt : Nat
  jf : Nat
  k : Nat
deriving DecidableEq, Repr

/-- The program descriptor, `struct sock_fprog` of `<linux/filter.h>`:
an `unsigned short` count and the pointer to the instruction array
(`none` is `NULL`). -/
structure sock_fprog where
  len : Nat
  filter : Option Nat
deriving DecidableEq, Repr

/-- The slot after `memset (&bpf->filter[i], 0, ...)` (line 169). -/
def sock_filter.zero : sock_filter := ⟨0, 0, 0, 0⟩

/-- Line 171: `bpf->filter[i].code = gen_bpf_code ()`. -/
def set_code (insn : sock_filter) (g : Rng) : sock_filter × Rng :=
  ({ insn with code := (gen_bpf_code g).1 }, (gen_bpf_code g).2)

/-- Lines 174-177: fill the jump offsets of a jump instruction. -/
def fill_jumps (insn : sock_filter) (g : Rng) : sock_filter × Rng :=
  if BPF_CLASS insn.code = BPF_JMP then
    let t := rand g
    let f := rand t.2
    ({ insn with jt := u8 t.1, jf := u8 f.1 }, f.2)
  else
    (insn, g)

/-- Lines 180-181: with one draw in ten, OR a random byte into `jt`. -/
def noise_jt (insn : sock_filter) (g : Rng) : sock_filter × Rng :=
  let coin := rand g
  if coin.1 % 10 = 0 then
    ({ insn with jt := u8 (insn.jt ||| u8 (rand coin.2).1) }, (rand coin.2).2)
  else
    (insn, coin.2)

/-- Lines 182-183: with one draw in ten, OR a random byte into `jf`. -/
def noise_jf (insn : sock_filter) (g : Rng) : sock_filter × Rng :=
  let coin := rand g
  if coin.1 % 10 = 0 then
    ({ insn with jf := u8 (insn.jf ||| u8 (rand coin.2).1) }, (rand coin.2).2)
  else
    (insn, coin.2)

/-- Line 186: `k = rand () % 2 == 0 ? 0 : (uint32_t) rand ()`. -/
def set_k (insn : sock_filter) (g : Rng) : sock_filter × Rng :=
  let coin := rand g
  if coin.1 % 2 = 0 then
    ({ insn with k := 0 }, coin.2)
  else
    ({ insn with k := u32 (rand coin.2).1 }, (rand coin.2).2)

/-- Lines 189-198: steer a large operand of a load into the extension
window. The sum `SKF_AD_OFF + rand () % SKF_AD_MAX` is computed on `int`
and then cast to `uint32_t`. `ad_max` is `SKF_AD_MAX`: the value that
`<linux/filter.h>` defines (64 in current headers); the `56` of lines 20-22
is used only when the header defines none. -/
def remap_k (ad_max : Nat) (insn : sock_filter) (g : Rng) : sock_filter × Rng :=
  if BPF_CLASS insn.code = BPF_LD ∨ BPF_CLASS insn.code = BPF_LDX then
    if insn.k > 65000 ∧ insn.k < u32_of_int SKF_AD_OFF then
      let coin := rand g
      if coin.1 % 2 = 0 then
        ({ insn with
            k := u32_of_int (SKF_AD_OFF + (((rand coin.2).1 % ad_max : Nat) : Int)) },
          (rand coin.2).2)
      else
        (insn, coin.2)
    else
      (insn, g)
  else
    (insn, g)

/-- The loop body up to and including the jump-offset noise (lines 169-183). -/
def gen_insn_jumps (g : Rng) : sock_filter × Rng :=
  let a := set_code sock_filter.zero g
  let b := fill_jumps a.1 a.2
  let c := noise_jt b.1 b.2
  noise_jf c.1 c.2

/-- The loop body up to and including the operand step (lines 169-186). -/
def gen_insn_pre (g : Rng) : sock_filter × Rng :=
  set_k (gen_insn_jumps g).1 (gen_insn_jumps g).2

/-- One iteration of the loop of `gen_bpf` (lines 169-198). -/
def gen_insn (ad_max : Nat) (g : Rng) : sock_filter × Rng :=
  remap_k ad_max (gen_insn_pre g).1 (gen_insn_pre g).2

/-- The loop `for (i = 0; i < bpf->len; i++)`: the instructions written, in
order, and the remaining stream. -/
def gen_insns (ad_max : Nat) : Nat → Rng → List sock_filter × Rng
  | 0, g => ([], g)
  | n + 1, g =>
    let i := gen_insn ad_max g
    let r := gen_insns ad_max n i.2
    (i.1 :: r.1, r.2)

/-- What the caller passed: with `addrlen == NULL` the address of a descriptor
to fill in place, otherwise two cells `*addr` and `*addrlen`. -/
inductive Target where
  | inPlace (bpf : sock_fprog)
  | handles (addr addrlen : Nat)
deriving DecidableEq, Repr

/-- The state after `gen_bpf` returns. -/
structure Outcome where
  /-- The caller's memory: the in-place descriptor, or `*addr` and `*addrlen`. -/
  target : Target
  /-- The descriptor acquired by the call and still allocated: address and
  contents. -/
  bpf : Option (Nat × sock_fprog)
  /-- The instruction array acquired by the call: address and contents. -/
  insns : Option (Nat × List sock_filter)
  /-- The addresses passed to `free`. -/
  freed : List Nat
  /-- The draws not yet consumed. -/
  rng : Rng

/-- The source's `gen_bpf`. `maxinsns` is `BPF_MAXINSNS`, `fprog_size` is
`sizeof (struct sock_fprog)` and `ad_max` is `SKF_AD_MAX`; `bpf_malloc` is what
the `malloc` of line 154 returns (consulted only when `addrlen` is not `NULL`)
and `filter_malloc` what the `malloc` of line 161 returns. -/
def gen_bpf (maxinsns fprog_size ad_max : Nat) (tgt : Target)
    (bpf_malloc filter_malloc : Option Nat) (g : Rng) : Outcome :=
  match tgt with
  | Target.handles addr addrlen =>
    match bpf_malloc with
    | none => ⟨Target.handles addr addrlen, none, none, [], g⟩
    | some p =>
      let len := u16 ((rand g).1 % maxinsns)
      match filter_malloc with
      | none => ⟨Target.handles addr addrlen, none, none, [p], (rand g).2⟩
      | some q =>
        let body := gen_insns ad_max len (rand g).2
        ⟨Target.handles p fprog_size, some (p, ⟨len, some q⟩), some (q, body.1), [],
          body.2⟩
  | Target.inPlace _ =>
    let len := u16 ((rand g).1 % maxinsns)
    match filter_malloc with
    | none => ⟨Target.inPlace ⟨len, none⟩, none, none, [], (rand g).2⟩
    | some q =>
      let body := gen_insns ad_max len (rand g).2
      ⟨Target.inPlace ⟨len, some q⟩, none, some (q, body.1), [], body.2⟩

/-- The descriptor that a finished call leaves for the caller, if any: the
in-place descriptor, or the one acquired by the call. -/
def Outcome.descriptor (o : Outcome) : Option sock_fprog :=
  match o.target with
  | Target.inPlace d => some d
  | Target.handles _ _ => o.bpf.map Prod.snd

/-! ## Vocabulary of the properties -/

/-- The class selected by the first draw of `gen_bpf_code`. -/
def drawn_class (g : Rng) : Nat := (bpf_rand bpf_class_vars (by decide) g).1

/-- The four classes that take the size, mode and source sub-fields. -/
def memory_classes : List Nat := [BPF_LD, BPF_LDX, BPF_ST, BPF_STX]

/-- The value of the draw tested by `rand () % 10 == 0` on line 142: the first
draw after the class switch. -/
def fuzz_coin (g : Rng) : Nat := (rand (gen_bpf_code_fields g).2).1

/-- The jump offsets as the specification words them, for an instruction whose
final opcode is `code` and whose remaining stream after `gen_bpf_code` is `g`:
`jt = base_t | noise_t` and `jf = base_f | noise_f`, the bases being the low
bytes of two successive draws for a jump and `0` otherwise, each noise being the
low byte of a further draw when its own coin is divisible by 10 and `0`
otherwise. -/
def jump_offsets_spec (code : Nat) (g : Rng) : Nat × Nat :=
  let is_jmp : Bool := BPF_CLASS code = BPF_JMP
  let base_t := if is_jmp then g 0 % 256 else 0
  let base_f := if is_jmp then g 1 % 256 else 0
  let g2 := if is_jmp then g.drop 2 else g
  let noise_t := if g2 0 % 10 = 0 then g2 1 % 256 else 0
  let g3 := if g2 0 % 10 = 0 then g2.drop 2 else g2.drop 1
  let noise_f := if g3 0 % 10 = 0 then g3 1 % 256 else 0
  (base_t ||| noise_t, base_f ||| noise_f)

/-- The stream at the start of iteration `i` of the loop of a `gen_bpf` call
made on stream `g`: the length draw and `i` iterations have been consumed. -/
def iteration_rng (ad_max : Nat) (g : Rng) (i : Nat) : Rng :=
  (gen_insns ad_max i (g.drop 1)).2

/-! ## Basic facts about the random source and the tables -/

@[simp] theorem rand_fst (g : Rng) : (rand g).1 = g 0 := rfl

@[simp] theorem rand_snd (g : Rng) : (rand g).2 = g.drop 1 := rfl

@[simp] theorem drop_apply (g : Rng) (n i : Nat) : g.drop n i = g (i + n) := rfl

@[simp] theorem drop_drop (g : Rng) (a b : Nat) : (g.drop a).drop b = g.drop (a + b) := by
  funext i
  simp [Rng.drop, Nat.add_assoc, Nat.add_comm b a]

theorem bpf_pick_mem (vars : List Nat) (h : 0 < vars.length) (r : Nat) :
    bpf_pick vars h r ∈ vars :=
  List.get_mem vars _ _

theorem drawn_class_eq (g : Rng) : drawn_class g = bpf_pick bpf_class_vars (by decide) (g 0) :=
  rfl

/-- The class switch on a memory class: three sub-field draws follow the class
draw. -/
theorem fields_memory (g : Rng) (hc : drawn_class g ∈ memory_classes) :
    gen_bpf_code_fields g =
      (u16 (drawn_class g ||| (bpf_pick bpf_size_vars (by decide) (g 1)
          ||| bpf_pick bpf_mode_vars (by decide) (g 2)
          ||| bpf_pick bpf_src_vars (by decide) (g 3))), g.drop 4) := by
  have hc' : drawn_class g = BPF_LD ∨ drawn_class g = BPF_LDX ∨ drawn_class g = BPF_ST ∨
      drawn_class g = BPF_STX := by
    simpa [memory_classes] using hc
  simp only [drawn_class] at hc' ⊢
  simp only [gen_bpf_code_fields, if_pos hc']
  simp [bpf_rand]

/-- The class switch on the jump class: the operator draw and the source draw
follow the class draw. -/
theorem fields_jmp (g : Rng) (hc : drawn_class g = BPF_JMP) :
    gen_bpf_code_fields g =
      (u16 (drawn_class g ||| (bpf_pick bpf_jmp_op_vars (by decide) (g 1)
          ||| bpf_pick bpf_src_vars (by decide) (g 2))), g.drop 3) := by
  simp only [drawn_class] at hc ⊢
  simp only [gen_bpf_code_fields, hc]
  simp [bpf_rand, BPF_JMP, BPF_LD, BPF_LDX, BPF_ST, BPF_STX, BPF_ALU]

/-- The corruption step leaves the opcode alone when its coin does not fire. -/
theorem gen_bpf_code_no_fuzz (g : Rng) (hf : fuzz_coin g % 10 ≠ 0) :
    gen_bpf_code g = ((gen_bpf_code_fields g).1, (gen_bpf_code_fields g).2.drop 1) := by
  simp only [fuzz_coin] at hf
  simp only [gen_bpf_code, gen_bpf_code_fuzz, if_neg hf]
  simp

/-- The decoded sub-fields of every opcode composed for a memory class. -/
theorem memory_code_fields :
    ∀ c ∈ memory_classes, ∀ s ∈ bpf_size_vars, ∀ m ∈ bpf_mode_vars, ∀ x ∈ bpf_src_vars,
      BPF_MODE (u16 (c ||| (s ||| m ||| x))) = m ∧
      BPF_SIZE (u16 (c ||| (s ||| m ||| x))) = s ||| x ∧
      (s ||| x ∈ bpf_size_vars ↔ ¬ (s = BPF_B ∧ x = BPF_X)) := by
  decide

/-- The decoded operator of every opcode composed for the jump class. -/
theorem jmp_code_fields :
    ∀ o ∈ bpf_jmp_op_vars, ∀ x ∈ bpf_src_vars,
      BPF_OP (u16 (BPF_JMP ||| (o ||| x))) = o := by
  decide

/-! ## C1: the chosen program length -/

/-- C1: whenever `gen_bpf` leaves a descriptor (in place, or freshly acquired
and reported), its `len` field is the first draw modulo `BPF_MAXINSNS`
truncated to 16 bits, and satisfies `0 <= len < BPF_MAXINSNS`. -/
theorem gen_bpf_len_lt_maxinsns (maxinsns fprog_size ad_max : Nat) (tgt : Target)
    (bpf_malloc filter_malloc : Option Nat) (g : Rng) (hmax : 0 < maxinsns)
    (d : sock_fprog)
    (hd : (gen_bpf maxinsns fprog_size ad_max tgt bpf_malloc filter_malloc g).descriptor = some d) :
    d.len = u16 (g 0 % maxinsns) ∧ 0 ≤ d.len ∧ d.len < maxinsns := by
  have hlt : u16 (g 0 % maxinsns) < maxinsns :=
    lt_of_le_of_lt (Nat.mod_le _ _) (Nat.mod_lt _ hmax)
  have hlen : d.len = u16 (g 0 % maxinsns) := by
    cases tgt with
    | inPlace d0 =>
      cases filter_malloc <;>
        (simp only [gen_bpf, Outcome.descriptor, rand_fst, Option.some.injEq] at hd
         rw [← hd])
    | handles a l =>
      cases bpf_malloc with
      | none => simp [gen_bpf, Outcome.descriptor] at hd
      | some p =>
        cases filter_malloc with
        | none => simp [gen_bpf, Outcome.descriptor] at hd
        | some q =>
          simp only [gen_bpf, Outcome.descriptor, rand_fst, Option.map_some',
            Option.some.injEq] at hd
          rw [← hd]
  exact ⟨hlen, Nat.zero_le _, hlen ▸ hlt⟩

/-- C1 at a concrete call: `BPF_MAXINSNS = 4096`, first draw `5000`, both
acquisitions succeed, present-length-pointer convention. -/
theorem gen_bpf_len_lt_maxinsns_witness :
    (0 < 4096) ∧
    (gen_bpf 4096 16 64 (Target.handles 0 0) (some 64) (some 128)
        (Rng.ofList [5000])).descriptor = some ⟨904, some 128⟩ ∧
    ((⟨904, some 128⟩ : sock_fprog).len = u16 (Rng.ofList [5000] 0 % 4096) ∧
      0 ≤ (⟨904, some 128⟩ : sock_fprog).len ∧
      (⟨904, some 128⟩ : sock_fprog).len < 4096) :=
  ⟨by decide, by rfl,
    gen_bpf_len_lt_maxinsns 4096 16 64 (Target.handles 0 0) (some 64) (some 128)
      (Rng.ofList [5000]) (by decide) ⟨904, some 128⟩ (by rfl)⟩

/-! ## C2-C4: decoded sub-fields without corruption -/

/-- C2 fails as stated: class draw `0` selects `BPF_LD`, the three sub-field
draws `5` select `BPF_B`, `BPF_MSH` and `BPF_X` (whatever the order in which
they are taken), the corruption coin `1` does not fire, and the decoded size
`0x18` is none of `BPF_W`, `BPF_H`, `BPF_B`. -/
theorem size_not_defined_counterexample :
    drawn_class (Rng.ofList [0, 5, 5, 5, 1]) ∈ memory_classes ∧
    fuzz_coin (Rng.ofList [0, 5, 5, 5, 1]) % 10 ≠ 0 ∧
    (gen_bpf_code (Rng.ofList [0, 5, 5, 5, 1])).1 = 0xb8 ∧
    BPF_SIZE (gen_bpf_code (Rng.ofList [0, 5, 5, 5, 1])).1 = 0x18 ∧
    BPF_SIZE (gen_bpf_code (Rng.ofList [0, 5, 5, 5, 1])).1 ∉ bpf_size_vars := by
  decide

/-- C2 (amended): for a drawn memory class and no corruption, the decoded size
is the drawn size OR-ed with the drawn source, and it is one of the defined
sizes exactly when the draws are not size `BPF_B` with source `BPF_X`. -/
theorem size_field_memory_class (g : Rng) (hc : drawn_class g ∈ memory_classes)
    (hf : fuzz_coin g % 10 ≠ 0) :
    BPF_SIZE (gen_bpf_code g).1 =
        bpf_pick bpf_size_vars (by decide) (g 1) ||| bpf_pick bpf_src_vars (by decide) (g 3) ∧
    (BPF_SIZE (gen_bpf_code g).1 ∈ bpf_size_vars ↔
      ¬ (bpf_pick bpf_size_vars (by decide) (g 1) = BPF_B ∧
         bpf_pick bpf_src_vars (by decide) (g 3) = BPF_X)) := by
  have h := memory_code_fields _ hc _ (bpf_pick_mem bpf_size_vars (by decide) (g 1))
    _ (bpf_pick_mem bpf_mode_vars (by decide) (g 2))
    _ (bpf_pick_mem bpf_src_vars (by decide) (g 3))
  rw [gen_bpf_code_no_fuzz g hf, fields_memory g hc]
  exact ⟨h.2.1, by rw [h.2.1]; exact h.2.2⟩

/-- C2 (amended) at a concrete stream: `BPF_LDX`, size `BPF_H`, mode
`BPF_ABS`, source `BPF_X`, no corruption. -/
theorem size_field_memory_class_witness :
    drawn_class (Rng.ofList [1, 1, 1, 1, 3]) ∈ memory_classes ∧
    fuzz_coin (Rng.ofList [1, 1, 1, 1, 3]) % 10 ≠ 0 ∧
    BPF_SIZE (gen_bpf_code (Rng.ofList [1, 1, 1, 1, 3])).1 = BPF_H :=
  ⟨by decide, by decide,
    (size_field_memory_class (Rng.ofList [1, 1, 1, 1, 3]) (by decide) (by decide)).1⟩

/-- C3: for a drawn memory class and no corruption, the decoded mode is the
mode that was drawn, hence one of the six defined modes. -/
theorem mode_field_memory_class (g : Rng) (hc : drawn_class g ∈ memory_classes)
    (hf : fuzz_coin g % 10 ≠ 0) :
    BPF_MODE (gen_bpf_code g).1 = bpf_pick bpf_mode_vars (by decide) (g 2) ∧
    BPF_MODE (gen_bpf_code g).1 ∈
      [BPF_IMM, BPF_ABS, BPF_IND, BPF_MEM, BPF_LEN, BPF_MSH] := by
  have h := memory_code_fields _ hc _ (bpf_pick_mem bpf_size_vars (by decide) (g 1))
    _ (bpf_pick_mem bpf_mode_vars (by decide) (g 2))
    _ (bpf_pick_mem bpf_src_vars (by decide) (g 3))
  rw [gen_bpf_code_no_fuzz g hf, fields_memory g hc]
  refine ⟨h.1, ?_⟩
  rw [h.1]
  exact bpf_pick_mem bpf_mode_vars (by decide) (g 2)

/-- C3 at a concrete stream: `BPF_ST`, size `BPF_B`, mode `BPF_MSH`, source
`BPF_X`, no corruption. -/
theorem mode_field_memory_class_witness :
    drawn_class (Rng.ofList [2, 5, 5, 5, 7]) ∈ memory_classes ∧
    fuzz_coin (Rng.ofList [2, 5, 5, 5, 7]) % 10 ≠ 0 ∧
    BPF_MODE (gen_bpf_code (Rng.ofList [2, 5, 5, 5, 7])).1 = BPF_MSH :=
  ⟨by decide, by decide,
    (mode_field_memory_class (Rng.ofList [2, 5, 5, 5, 7]) (by decide) (by decide)).1⟩

/-- C4: for a drawn jump class and no corruption, the decoded operator is the
jump operator that was drawn, hence one of the five defined jump operators,
whatever source was drawn. -/
theorem op_field_jmp_class (g : Rng) (hc : drawn_class g = BPF_JMP)
    (hf : fuzz_coin g % 10 ≠ 0) :
    BPF_OP (gen_bpf_code g).1 = bpf_pick bpf_jmp_op_vars (by decide) (g 1) ∧
    BPF_OP (gen_bpf_code g).1 ∈ [BPF_JA, BPF_JEQ, BPF_JGT, BPF_JGE, BPF_JSET] := by
  have h := jmp_code_fields _ (bpf_pick_mem bpf_jmp_op_vars (by decide) (g 1))
    _ (bpf_pick_mem bpf_src_vars (by decide) (g 2))
  rw [gen_bpf_code_no_fuzz g hf, fields_jmp g hc, hc]
  refine ⟨h, ?_⟩
  rw [h]
  exact bpf_pick_mem bpf_jmp_op_vars (by decide) (g 1)

/-- C4 at a concrete stream: `BPF_JMP`, operator `BPF_JSET`, source `BPF_X`,
no corruption. -/
theorem op_field_jmp_class_witness :
    drawn_class (Rng.ofList [5, 9, 9, 3]) = BPF_JMP ∧
    fuzz_coin (Rng.ofList [5, 9, 9, 3]) % 10 ≠ 0 ∧
    BPF_OP (gen_bpf_code (Rng.ofList [5, 9, 9, 3])).1 = BPF_JSET :=
  ⟨by decide, by decide,
    (op_field_jmp_class (Rng.ofList [5, 9, 9, 3]) (by decide) (by decide)).1⟩

/-! ## C5-C7: the operand and its remapping -/

/-- The unsigned value of `(uint32_t) SKF_AD_OFF`. -/
theorem u32_SKF_AD_OFF : u32_of_int SKF_AD_OFF = 0xFFFFF000 := by
  decide

/-- The remapped operand: for `0 < SKF_AD_MAX <= 0x1000` no wrap-around happens
in the cast. -/
theorem u32_window (ad_max r : Nat) (hpos : 0 < ad_max) (hmax : ad_max ≤ 0x1000) :
    u32_of_int (SKF_AD_OFF + ((r % ad_max : Nat) : Int)) = 2 ^ 32 - 4096 + r % ad_max := by
  have ht : r % ad_max < 0x1000 := lt_of_lt_of_le (Nat.mod_lt r hpos) hmax
  generalize r % ad_max = t at ht ⊢
  simp only [u32_of_int, SKF_AD_OFF]
  omega

/-- The remap step never touches the opcode. -/
theorem remap_k_code (ad_max : Nat) (insn : sock_filter) (g : Rng) :
    (remap_k ad_max insn g).1.code = insn.code := by
  simp only [remap_k]
  split_ifs <;> rfl

/-- The operand step never touches the opcode. -/
theorem set_k_code (insn : sock_filter) (g : Rng) : (set_k insn g).1.code = insn.code := by
  simp only [set_k]
  split_ifs <;> rfl

/-- The operand assigned by line 186. -/
theorem set_k_k (insn : sock_filter) (g : Rng) :
    (set_k insn g).1.k = if g 0 % 2 = 0 then 0 else u32 (g 1) := by
  simp only [set_k, rand_fst, rand_snd, drop_apply]
  split_ifs <;> rfl

/-- The remap step on an eligible load whose coin is even. -/
theorem remap_k_even (ad_max : Nat) (insn : sock_filter) (g : Rng)
    (hc : BPF_CLASS insn.code = BPF_LD ∨ BPF_CLASS insn.code = BPF_LDX)
    (hlo : 65000 < insn.k) (hhi : insn.k < u32_of_int SKF_AD_OFF) (hcoin : g 0 % 2 = 0) :
    (remap_k ad_max insn g).1.k = u32_of_int (SKF_AD_OFF + ((g 1 % ad_max : Nat) : Int)) := by
  have hr : insn.k > 65000 ∧ insn.k < u32_of_int SKF_AD_OFF := ⟨hlo, hhi⟩
  simp only [remap_k, if_pos hc, if_pos hr, rand_fst, if_pos hcoin]
  simp

/-- The remap step on an eligible load whose coin is odd. -/
theorem remap_k_odd (ad_max : Nat) (insn : sock_filter) (g : Rng) (hcoin : g 0 % 2 ≠ 0) :
    (remap_k ad_max insn g).1.k = insn.k := by
  simp only [remap_k, rand_fst, if_neg hcoin]
  split_ifs <;> rfl

/-- C5 fails as stated: with `SKF_AD_MAX = 64`, the value of `<linux/filter.h>`,
a `BPF_LD` instruction (no corruption, no noise) whose operand draw is `70000`,
whose remap coin `2` is even and whose remap draw is `60` ends with operand
`0xFFFFF03C`, which is neither `70000` nor inside
`[0xFFFFF000, 0xFFFFF000 + 56)`. -/
theorem remap_window_56_counterexample :
    (BPF_CLASS (gen_insn_pre (Rng.ofList [0, 0, 0, 0, 1, 1, 1, 1, 70000, 2, 60])).1.code
        = BPF_LD ∨
      BPF_CLASS (gen_insn_pre (Rng.ofList [0, 0, 0, 0, 1, 1, 1, 1, 70000, 2, 60])).1.code
        = BPF_LDX) ∧
    (gen_insn_pre (Rng.ofList [0, 0, 0, 0, 1, 1, 1, 1, 70000, 2, 60])).1.k = 70000 ∧
    (65000 < 70000 ∧ 70000 < u32_of_int SKF_AD_OFF) ∧
    (gen_insn 64 (Rng.ofList [0, 0, 0, 0, 1, 1, 1, 1, 70000, 2, 60])).1.k = 0xFFFFF03C ∧
    ¬ ((gen_insn 64 (Rng.ofList [0, 0, 0, 0, 1, 1, 1, 1, 70000, 2, 60])).1.k = 70000 ∨
      (0xFFFFF000 ≤ (gen_insn 64 (Rng.ofList [0, 0, 0, 0, 1, 1, 1, 1, 70000, 2, 60])).1.k ∧
        (gen_insn 64 (Rng.ofList [0, 0, 0, 0, 1, 1, 1, 1, 70000, 2, 60])).1.k
          < 0xFFFFF000 + 56)) := by
  decide

/-- C5 (amended): for an instruction of class Load or LoadIndexed whose operand
before the remap step lies strictly between 65000 and `(uint32_t) SKF_AD_OFF`,
the operand after the remap step is the old operand or lies in
`[0xFFFFF000, 0xFFFFF000 + SKF_AD_MAX)`, for all draws and every value
`0 < SKF_AD_MAX <= 0x1000` of the constant. -/
theorem remap_k_unchanged_or_window (ad_max : Nat) (insn : sock_filter) (g : Rng)
    (hpos : 0 < ad_max) (hmax : ad_max ≤ 0x1000)
    (hc : BPF_CLASS insn.code = BPF_LD ∨ BPF_CLASS insn.code = BPF_LDX)
    (hlo : 65000 < insn.k) (hhi : insn.k < u32_of_int SKF_AD_OFF) :
    (remap_k ad_max insn g).1.k = insn.k ∨
      (0xFFFFF000 ≤ (remap_k ad_max insn g).1.k ∧
        (remap_k ad_max insn g).1.k < 0xFFFFF000 + ad_max) := by
  by_cases hcoin : g 0 % 2 = 0
  · right
    rw [remap_k_even ad_max insn g hc hlo hhi hcoin, u32_window ad_max (g 1) hpos hmax]
    have := Nat.mod_lt (g 1) hpos
    omega
  · left
    exact remap_k_odd ad_max insn g hcoin

/-- C5 (amended) on one whole loop iteration with `SKF_AD_MAX = 64`: class
`BPF_LD`, no corruption, no noise, operand draw `70000`, remap coin `2` (even),
remap draw `60`. -/
theorem remap_k_unchanged_or_window_witness :
    (BPF_CLASS (gen_insn_pre (Rng.ofList [0, 0, 0, 0, 1, 1, 1, 1, 70000, 2, 60])).1.code
        = BPF_LD ∨
      BPF_CLASS (gen_insn_pre (Rng.ofList [0, 0, 0, 0, 1, 1, 1, 1, 70000, 2, 60])).1.code
        = BPF_LDX) ∧
    (gen_insn_pre (Rng.ofList [0, 0, 0, 0, 1, 1, 1, 1, 70000, 2, 60])).1.k = 70000 ∧
    (gen_insn 64 (Rng.ofList [0, 0, 0, 0, 1, 1, 1, 1, 70000, 2, 60])).1.k = 0xFFFFF03C ∧
    ((gen_insn 64 (Rng.ofList [0, 0, 0, 0, 1, 1, 1, 1, 70000, 2, 60])).1.k = 70000 ∨
      (0xFFFFF000 ≤ (gen_insn 64 (Rng.ofList [0, 0, 0, 0, 1, 1, 1, 1, 70000, 2, 60])).1.k ∧
        (gen_insn 64 (Rng.ofList [0, 0, 0, 0, 1, 1, 1, 1, 70000, 2, 60])).1.k
          < 0xFFFFF000 + 64)) :=
  ⟨by decide, by decide, by decide,
    remap_k_unchanged_or_window 64
      (gen_insn_pre (Rng.ofList [0, 0, 0, 0, 1, 1, 1, 1, 70000, 2, 60])).1
      (gen_insn_pre (Rng.ofList [0, 0, 0, 0, 1, 1, 1, 1, 70000, 2, 60])).2
      (by decide) (by decide) (by decide) (by decide) (by decide)⟩

/-- C6 fails as stated: with `SKF_AD_MAX = 64`, the value of `<linux/filter.h>`,
a `BPF_LD` instruction with operand `70000`, an even remap coin `4` and next
draw `r = 100` ends with operand `0xFFFFF024 = 2^32 - 4096 + 100 % 64`, not
with `2^32 - 4096 + 100 % 56 = 0xFFFFF02C`. -/
theorem remap_value_mod_56_counterexample :
    (BPF_CLASS (⟨BPF_LD ||| BPF_W ||| BPF_ABS, 0, 0, 70000⟩ : sock_filter).code = BPF_LD ∧
      65000 < (⟨BPF_LD ||| BPF_W ||| BPF_ABS, 0, 0, 70000⟩ : sock_filter).k ∧
      (⟨BPF_LD ||| BPF_W ||| BPF_ABS, 0, 0, 70000⟩ : sock_filter).k < u32_of_int SKF_AD_OFF ∧
      Rng.ofList [4, 100] 0 % 2 = 0) ∧
    (remap_k 64 ⟨BPF_LD ||| BPF_W ||| BPF_ABS, 0, 0, 70000⟩ (Rng.ofList [4, 100])).1.k
      = 0xFFFFF024 ∧
    (remap_k 64 ⟨BPF_LD ||| BPF_W ||| BPF_ABS, 0, 0, 70000⟩ (Rng.ofList [4, 100])).1.k
      ≠ 2 ^ 32 - 4096 + Rng.ofList [4, 100] 1 % 56 := by
  decide

/-- C6 (amended): for an instruction of class Load or LoadIndexed whose operand
before the remap step lies strictly between 65000 and `(uint32_t) SKF_AD_OFF`,
when the remap coin is even the final operand is
`(uint32_t) (SKF_AD_OFF + r % SKF_AD_MAX) = 2^32 - 4096 + r % SKF_AD_MAX` for
the next draw `r`; it lies in `[0xFFFFF000, 0xFFFFF000 + SKF_AD_MAX)` and below
`2^32`, for every value `0 < SKF_AD_MAX <= 0x1000` of the constant. -/
theorem remap_k_even_in_window (ad_max : Nat) (insn : sock_filter) (g : Rng)
    (hpos : 0 < ad_max) (hmax : ad_max ≤ 0x1000)
    (hc : BPF_CLASS insn.code = BPF_LD ∨ BPF_CLASS insn.code = BPF_LDX)
    (hlo : 65000 < insn.k) (hhi : insn.k < u32_of_int SKF_AD_OFF) (hcoin : g 0 % 2 = 0) :
    (remap_k ad_max insn g).1.k = u32_of_int (SKF_AD_OFF + ((g 1 % ad_max : Nat) : Int)) ∧
    (remap_k ad_max insn g).1.k = 2 ^ 32 - 4096 + g 1 % ad_max ∧
    0xFFFFF000 ≤ (remap_k ad_max insn g).1.k ∧
    (remap_k ad_max insn g).1.k < 0xFFFFF000 + ad_max ∧
    (remap_k ad_max insn g).1.k < 2 ^ 32 := by
  have h := remap_k_even ad_max insn g hc hlo hhi hcoin
  have hw := u32_window ad_max (g 1) hpos hmax
  have := Nat.mod_lt (g 1) hpos
  refine ⟨h, h.trans hw, ?_, ?_, ?_⟩ <;> rw [h, hw] <;> omega

/-- C6 (amended) on the scenario of the specification with `SKF_AD_MAX = 64`:
class `BPF_LD`, operand `70000`, remap coin even, next draw `100`. -/
theorem remap_k_even_in_window_witness :
    (remap_k 64 ⟨BPF_LD ||| BPF_W ||| BPF_ABS, 0, 0, 70000⟩ (Rng.ofList [4, 100])).1.k
      = 0xFFFFF000 + 36 :=
  (remap_k_even_in_window 64 ⟨BPF_LD ||| BPF_W ||| BPF_ABS, 0, 0, 70000⟩
    (Rng.ofList [4, 100]) (by decide) (by decide) (by decide) (by decide) (by decide)
    (by decide)).2.1

/-- C7: when the final opcode of an instruction has a class other than Load
and LoadIndexed, or the operand assigned by the operand step is at most 65000
or at least `(uint32_t) SKF_AD_OFF`, the final operand is the one assigned by
the operand step: `0` when the operand coin is even, otherwise the next draw
truncated to 32 bits. This holds for every value of `SKF_AD_MAX`. -/
theorem operand_not_remapped (ad_max : Nat) (g : Rng)
    (h : (BPF_CLASS (gen_insn ad_max g).1.code ≠ BPF_LD ∧
        BPF_CLASS (gen_insn ad_max g).1.code ≠ BPF_LDX) ∨
      (gen_insn_pre g).1.k ≤ 65000 ∨ u32_of_int SKF_AD_OFF ≤ (gen_insn_pre g).1.k) :
    (gen_insn ad_max g).1.k = (gen_insn_pre g).1.k ∧
    (gen_insn ad_max g).1.k =
      if (gen_insn_jumps g).2 0 % 2 = 0 then 0 else u32 ((gen_insn_jumps g).2 1) := by
  have hpre : (gen_insn_pre g).1.k =
      if (gen_insn_jumps g).2 0 % 2 = 0 then 0 else u32 ((gen_insn_jumps g).2 1) :=
    set_k_k _ _
  have hcode : (gen_insn ad_max g).1.code = (gen_insn_pre g).1.code := remap_k_code _ _ _
  have hk : (gen_insn ad_max g).1.k = (gen_insn_pre g).1.k := by
    rw [hcode] at h
    simp only [gen_insn, remap_k]
    split_ifs with h1 h2 h3
    · exfalso
      rcases h with h | h | h
      · rcases h1 with h1 | h1
        · exact h.1 h1
        · exact h.2 h1
      · omega
      · omega
    all_goals rfl
  exact ⟨hk, hk.trans hpre⟩

/-- C7 at the boundary: a `BPF_LD` instruction whose operand is exactly 65000
keeps it, although the next coin is even. -/
theorem operand_not_remapped_witness :
    (gen_insn 64 (Rng.ofList [0, 0, 0, 0, 1, 1, 1, 1, 65000, 2, 60])).1.k = 65000 :=
  (operand_not_remapped 64 (Rng.ofList [0, 0, 0, 0, 1, 1, 1, 1, 65000, 2, 60])
    (Or.inr (Or.inl (by decide)))).1.trans (by decide)

/-! ## C8-C9: the jump offsets -/

theorem u8_lt (x : Nat) : u8 x < 2 ^ 8 := Nat.mod_lt _ (by decide)

theorem u8_lor (a b : Nat) (ha : a < 2 ^ 8) (hb : b < 2 ^ 8) : u8 (a ||| b) = a ||| b :=
  Nat.mod_eq_of_lt (Nat.or_lt_two_pow ha hb)

theorem remap_k_jt (ad_max : Nat) (insn : sock_filter) (g : Rng) :
    (remap_k ad_max insn g).1.jt = insn.jt := by
  simp only [remap_k]
  split_ifs <;> rfl

theorem remap_k_jf (ad_max : Nat) (insn : sock_filter) (g : Rng) :
    (remap_k ad_max insn g).1.jf = insn.jf := by
  simp only [remap_k]
  split_ifs <;> rfl

theorem set_k_jt (insn : sock_filter) (g : Rng) : (set_k insn g).1.jt = insn.jt := by
  simp only [set_k]
  split_ifs <;> rfl

theorem set_k_jf (insn : sock_filter) (g : Rng) : (set_k insn g).1.jf = insn.jf := by
  simp only [set_k]
  split_ifs <;> rfl

/-- The jump-offset part of one loop iteration, for an opcode `code` and the
stream `g` that follows `gen_bpf_code`. -/
theorem jumps_steps (code : Nat) (g : Rng) :
    let b := fill_jumps { sock_filter.zero with code := code } g
    let c := noise_jt b.1 b.2
    let d := noise_jf c.1 c.2
    d.1.code = code ∧ (d.1.jt, d.1.jf) = jump_offsets_spec code g := by
  have e1 : ∀ x y : Nat, (x % 256 ||| y % 256) % 256 = x % 256 ||| y % 256 := fun x y =>
    u8_lor _ _ (u8_lt x) (u8_lt y)
  have e2 : ∀ x y : Nat, x % 256 ||| y % 256 < 256 := fun x y =>
    Nat.or_lt_two_pow (u8_lt x) (u8_lt y)
  by_cases hj : BPF_CLASS code = BPF_JMP
  · by_cases ht : g 2 % 10 = 0
    · by_cases hf : g 4 % 10 = 0 <;>
        simp [fill_jumps, noise_jt, noise_jf, jump_offsets_spec, sock_filter.zero, hj, ht, hf,
          u8, e1, e2]
    · by_cases hf : g 3 % 10 = 0 <;>
        simp [fill_jumps, noise_jt, noise_jf, jump_offsets_spec, sock_filter.zero, hj, ht, hf,
          u8, e1, e2]
  · by_cases ht : g 0 % 10 = 0
    · by_cases hf : g 2 % 10 = 0 <;>
        simp [fill_jumps, noise_jt, noise_jf, jump_offsets_spec, sock_filter.zero, hj, ht, hf,
          u8, e1, e2]
    · by_cases hf : g 1 % 10 = 0 <;>
        simp [fill_jumps, noise_jt, noise_jf, jump_offsets_spec, sock_filter.zero, hj, ht, hf,
          u8, e1, e2]

/-- The jump offsets written by one loop iteration agree with the
specification's wording. -/
theorem gen_insn_jump_offsets (ad_max : Nat) (g : Rng) :
    (gen_insn ad_max g).1.code = (gen_bpf_code g).1 ∧
    ((gen_insn ad_max g).1.jt, (gen_insn ad_max g).1.jf) =
      jump_offsets_spec (gen_bpf_code g).1 (gen_bpf_code g).2 := by
  have h := jumps_steps (gen_bpf_code g).1 (gen_bpf_code g).2
  simp only [gen_insn, gen_insn_pre, remap_k_code, remap_k_jt, remap_k_jf, set_k_code,
    set_k_jt, set_k_jf]
  exact h

/-- Every instruction written by the loop is the result of one loop iteration
started on some stream. -/
theorem gen_insns_mem (ad_max n : Nat) (g : Rng) (insn : sock_filter)
    (h : insn ∈ (gen_insns ad_max n g).1) : ∃ g0 : Rng, insn = (gen_insn ad_max g0).1 := by
  induction n generalizing g with
  | zero => simp [gen_insns] at h
  | succ n ih =>
    simp only [gen_insns, List.mem_cons] at h
    rcases h with h | h
    · exact ⟨g, h⟩
    · exact ih _ h

/-- The loop writes exactly as many instructions as its bound. -/
theorem gen_insns_length (ad_max n : Nat) (g : Rng) : (gen_insns ad_max n g).1.length = n := by
  induction n generalizing g with
  | zero => rfl
  | succ n ih => simp [gen_insns, ih]

/-- The instruction array of a call that produced one is the output of the loop
run for the chosen length on the stream after the length draw. -/
theorem gen_bpf_insns (maxinsns fprog_size ad_max : Nat) (tgt : Target)
    (bpf_malloc filter_malloc : Option Nat) (g : Rng) (q : Nat) (l : List sock_filter)
    (h : (gen_bpf maxinsns fprog_size ad_max tgt bpf_malloc filter_malloc g).insns = some (q, l)) :
    l = (gen_insns ad_max (u16 (g 0 % maxinsns)) (g.drop 1)).1 := by
  cases tgt with
  | inPlace d0 =>
    cases filter_malloc with
    | none => simp [gen_bpf] at h
    | some q0 =>
      simp only [gen_bpf, rand_fst, rand_snd, Option.some.injEq, Prod.mk.injEq] at h
      exact h.2.symm
  | handles a b =>
    cases bpf_malloc with
    | none => simp [gen_bpf] at h
    | some p =>
      cases filter_malloc with
      | none => simp [gen_bpf] at h
      | some q0 =>
        simp only [gen_bpf, rand_fst, rand_snd, Option.some.injEq, Prod.mk.injEq] at h
        exact h.2.symm

/-- The instruction at index `i` of the loop's output is written by the
iteration started on the stream left by the `i` iterations before it. -/
theorem gen_insns_getElem (ad_max n : Nat) (g : Rng) (i : Nat) (insn : sock_filter)
    (h : (gen_insns ad_max n g).1[i]? = some insn) :
    insn = (gen_insn ad_max (gen_insns ad_max i g).2).1 := by
  induction n generalizing g i with
  | zero => simp [gen_insns] at h
  | succ n ih =>
    cases i with
    | zero =>
      simp only [gen_insns, List.getElem?_cons_zero, Option.some.injEq] at h
      exact h.symm
    | succ i =>
      simp only [gen_insns, List.getElem?_cons_succ] at h
      have h2 := ih (gen_insn ad_max g).2 i h
      exact h2

/-- C8: in a program produced by `gen_bpf`, the instruction at every index `i`
is written by the loop iteration started on `iteration_rng ad_max g i`; its jump
offsets are `jt = base_t | noise_t` and `jf = base_f | noise_f` as worded in
`jump_offsets_spec`, relative to the instruction's final opcode and to the
stream that follows `gen_bpf_code`; in particular a non-jump instruction for
which neither noise coin fires has `jt = jf = 0`. -/
theorem gen_bpf_jump_offsets (maxinsns fprog_size ad_max : Nat) (tgt : Target)
    (bpf_malloc filter_malloc : Option Nat) (g : Rng) (q : Nat) (l : List sock_filter)
    (h : (gen_bpf maxinsns fprog_size ad_max tgt bpf_malloc filter_malloc g).insns = some (q, l))
    (i : Nat) (insn : sock_filter) (hi : l[i]? = some insn) :
    insn = (gen_insn ad_max (iteration_rng ad_max g i)).1 ∧
    insn.code = (gen_bpf_code (iteration_rng ad_max g i)).1 ∧
    (insn.jt, insn.jf) = jump_offsets_spec insn.code (gen_bpf_code (iteration_rng ad_max g i)).2 ∧
    (BPF_CLASS insn.code ≠ BPF_JMP → (gen_bpf_code (iteration_rng ad_max g i)).2 0 % 10 ≠ 0 →
      (gen_bpf_code (iteration_rng ad_max g i)).2 1 % 10 ≠ 0 → insn.jt = 0 ∧ insn.jf = 0) := by
  rw [gen_bpf_insns _ _ _ _ _ _ _ _ _ h] at hi
  have hg0 : insn = (gen_insn ad_max (iteration_rng ad_max g i)).1 := gen_insns_getElem _ _ _ _ _ hi
  have hj := gen_insn_jump_offsets ad_max (iteration_rng ad_max g i)
  rw [← hg0] at hj
  have hspec : (insn.jt, insn.jf) =
      jump_offsets_spec insn.code (gen_bpf_code (iteration_rng ad_max g i)).2 := by
    rw [hj.1]
    exact hj.2
  refine ⟨hg0, hj.1, hspec, ?_⟩
  intro hc ht hf
  have hz : jump_offsets_spec insn.code (gen_bpf_code (iteration_rng ad_max g i)).2 = (0, 0) := by
    simp [jump_offsets_spec, hc, ht, hf]
  rw [hz] at hspec
  exact ⟨congrArg Prod.fst hspec, congrArg Prod.snd hspec⟩

/-- C8 at a concrete call: length draw `2`. Instruction 0 is a jump
(`BPF_JSET`, `BPF_X`) without corruption, offset draws `300` and `7`, the `jt`
noise coin `10` fires with byte `255`, the `jf` noise coin `3` does not,
operand coin `0`. Instruction 1 is a `BPF_RET` of `BPF_K` for which no coin
fires. -/
theorem gen_bpf_jump_offsets_witness :
    (gen_bpf 4096 16 64 (Target.handles 0 0) (some 64) (some 128)
        (Rng.ofList [2, 5, 9, 9, 9, 300, 7, 10, 255, 3, 0, 6, 1, 1, 1, 1, 0])).insns
      = some (128, [⟨0x4d, 255, 7, 0⟩, ⟨0x06, 0, 0, 0⟩]) ∧
    ((⟨0x4d, 255, 7, 0⟩ : sock_filter).jt, (⟨0x4d, 255, 7, 0⟩ : sock_filter).jf) =
      jump_offsets_spec 0x4d (Rng.ofList [300, 7, 10, 255, 3, 0]) ∧
    ((⟨0x06, 0, 0, 0⟩ : sock_filter).jt = 0 ∧ (⟨0x06, 0, 0, 0⟩ : sock_filter).jf = 0) :=
  ⟨by decide,
    (gen_bpf_jump_offsets 4096 16 64 (Target.handles 0 0) (some 64) (some 128)
      (Rng.ofList [2, 5, 9, 9, 9, 300, 7, 10, 255, 3, 0, 6, 1, 1, 1, 1, 0]) 128
      [⟨0x4d, 255, 7, 0⟩, ⟨0x06, 0, 0, 0⟩] (by decide) 0 ⟨0x4d, 255, 7, 0⟩ (by decide)).2.2.1.trans
      (by decide),
    (gen_bpf_jump_offsets 4096 16 64 (Target.handles 0 0) (some 64) (some 128)
      (Rng.ofList [2, 5, 9, 9, 9, 300, 7, 10, 255, 3, 0, 6, 1, 1, 1, 1, 0]) 128
      [⟨0x4d, 255, 7, 0⟩, ⟨0x06, 0, 0, 0⟩] (by decide) 1 ⟨0x06, 0, 0, 0⟩ (by decide)).2.2.2
      (by decide) (by decide) (by decide)⟩

/-- C9 fails as stated: for a jump (`BPF_JA`, `BPF_K`, no corruption) whose two
offset draws are `256` and `0`, both offsets are `0` before the noise step. -/
theorem jump_offsets_zero_counterexample :
    BPF_CLASS (set_code sock_filter.zero (Rng.ofList [5, 0, 0, 1, 256, 0])).1.code = BPF_JMP ∧
    (fill_jumps (set_code sock_filter.zero (Rng.ofList [5, 0, 0, 1, 256, 0])).1
      (set_code sock_filter.zero (Rng.ofList [5, 0, 0, 1, 256, 0])).2).1.jt = 0 ∧
    (fill_jumps (set_code sock_filter.zero (Rng.ofList [5, 0, 0, 1, 256, 0])).1
      (set_code sock_filter.zero (Rng.ofList [5, 0, 0, 1, 256, 0])).2).1.jf = 0 := by
  decide

/-- C9 (amended): for an instruction whose class is Jump, before the noise step
`jt` and `jf` hold the low 8 bits of two successive draws; each is non-zero
exactly when its draw is not a multiple of 256. -/
theorem fill_jumps_bytes (insn : sock_filter) (g : Rng)
    (hc : BPF_CLASS insn.code = BPF_JMP) :
    (fill_jumps insn g).1.jt = g 0 % 256 ∧ (fill_jumps insn g).1.jf = g 1 % 256 ∧
    ((fill_jumps insn g).1.jt ≠ 0 ↔ g 0 % 256 ≠ 0) ∧
    ((fill_jumps insn g).1.jf ≠ 0 ↔ g 1 % 256 ≠ 0) := by
  have ht : (fill_jumps insn g).1.jt = g 0 % 256 := by
    simp only [fill_jumps, if_pos hc, rand_fst]
    rfl
  have hf : (fill_jumps insn g).1.jf = g 1 % 256 := by
    simp only [fill_jumps, if_pos hc, rand_fst, rand_snd, drop_apply]
    rfl
  exact ⟨ht, hf, by rw [ht], by rw [hf]⟩

/-- C9 (amended) at a concrete jump: offset draws `300` and `7`. -/
theorem fill_jumps_bytes_witness :
    (fill_jumps ⟨BPF_JMP ||| BPF_JEQ, 0, 0, 0⟩ (Rng.ofList [300, 7])).1.jt = 44 ∧
    (fill_jumps ⟨BPF_JMP ||| BPF_JEQ, 0, 0, 0⟩ (Rng.ofList [300, 7])).1.jf = 7 :=
  ⟨(fill_jumps_bytes ⟨BPF_JMP ||| BPF_JEQ, 0, 0, 0⟩ (Rng.ofList [300, 7]) (by decide)).1,
    (fill_jumps_bytes ⟨BPF_JMP ||| BPF_JEQ, 0, 0, 0⟩ (Rng.ofList [300, 7]) (by decide)).2.1⟩

/-! ## C10: failed acquisition, present length pointer -/

/-- C10: with a present length pointer, when the descriptor or the instruction
array cannot be acquired, `*addr` and `*addrlen` keep their values, no
descriptor and no array is handed out, and a descriptor that had been acquired
is released. -/
theorem gen_bpf_failure_handles (maxinsns fprog_size ad_max addr addrlen : Nat)
    (bpf_malloc filter_malloc : Option Nat) (g : Rng)
    (hfail : bpf_malloc = none ∨ filter_malloc = none) :
    (gen_bpf maxinsns fprog_size ad_max (Target.handles addr addrlen) bpf_malloc filter_malloc g).target
      = Target.handles addr addrlen ∧
    (gen_bpf maxinsns fprog_size ad_max (Target.handles addr addrlen) bpf_malloc filter_malloc g).bpf
      = none ∧
    (gen_bpf maxinsns fprog_size ad_max (Target.handles addr addrlen) bpf_malloc filter_malloc g).insns
      = none ∧
    (gen_bpf maxinsns fprog_size ad_max (Target.handles addr addrlen) bpf_malloc filter_malloc g).freed
      = bpf_malloc.toList := by
  cases bpf_malloc with
  | none => exact ⟨rfl, rfl, rfl, rfl⟩
  | some p =>
    cases filter_malloc with
    | none => exact ⟨rfl, rfl, rfl, rfl⟩
    | some q => simp at hfail

/-- C10 at a concrete call: the descriptor is acquired at address `64`, the
array is not; the cells keep `7` and `9` and the descriptor is released. -/
theorem gen_bpf_failure_handles_witness :
    (gen_bpf 4096 16 64 (Target.handles 7 9) (some 64) none (Rng.ofList [5])).target
      = Target.handles 7 9 ∧
    (gen_bpf 4096 16 64 (Target.handles 7 9) (some 64) none (Rng.ofList [5])).bpf = none ∧
    (gen_bpf 4096 16 64 (Target.handles 7 9) (some 64) none (Rng.ofList [5])).insns = none ∧
    (gen_bpf 4096 16 64 (Target.handles 7 9) (some 64) none (Rng.ofList [5])).freed = [64] :=
  gen_bpf_failure_handles 4096 16 64 7 9 (some 64) none (Rng.ofList [5]) (Or.inr rfl)

/-! ## C11-C13: the two calling conventions -/

/-- C11: with an absent length pointer, when the instruction array cannot be
acquired the caller's in-place descriptor is left with a null `filter`, no
array and no instruction exists, nothing is freed, and only the length draw has
been consumed. -/
theorem gen_bpf_failure_inplace (maxinsns fprog_size ad_max : Nat) (d0 : sock_fprog)
    (bpf_malloc : Option Nat) (g : Rng) :
    (∃ d, (gen_bpf maxinsns fprog_size ad_max (Target.inPlace d0) bpf_malloc none g).target
        = Target.inPlace d ∧ d.filter = none) ∧
    (gen_bpf maxinsns fprog_size ad_max (Target.inPlace d0) bpf_malloc none g).insns = none ∧
    (gen_bpf maxinsns fprog_size ad_max (Target.inPlace d0) bpf_malloc none g).bpf = none ∧
    (gen_bpf maxinsns fprog_size ad_max (Target.inPlace d0) bpf_malloc none g).freed = [] ∧
    (gen_bpf maxinsns fprog_size ad_max (Target.inPlace d0) bpf_malloc none g).rng = g.drop 1 :=
  ⟨⟨⟨u16 (g 0 % maxinsns), none⟩, rfl, rfl⟩, rfl, rfl, rfl, rfl⟩

/-- C12 fails as stated: with an absent length pointer, an in-place descriptor
whose length was `7`, first draw `5` and a failed array acquisition, the length
field holds `5` after the call. -/
theorem inplace_len_overwritten_counterexample :
    (gen_bpf 4096 16 64 (Target.inPlace ⟨7, some 32⟩) none none (Rng.ofList [5])).target
      = Target.inPlace ⟨5, none⟩ ∧
    (gen_bpf 4096 16 64 (Target.inPlace ⟨7, some 32⟩) none none (Rng.ofList [5])).descriptor.map
      sock_fprog.len ≠ some (sock_fprog.len ⟨7, some 32⟩) := by
  decide

/-- C12 (amended): with an absent length pointer, when the instruction array
cannot be acquired no array is produced and the caller's in-place descriptor
holds the newly chosen length, the first draw modulo `BPF_MAXINSNS` truncated to
16 bits, with a null `filter`; the length field has its old value exactly when
the draw selects that value. -/
theorem gen_bpf_failure_inplace_len (maxinsns fprog_size ad_max : Nat) (d0 : sock_fprog)
    (bpf_malloc : Option Nat) (g : Rng) :
    (gen_bpf maxinsns fprog_size ad_max (Target.inPlace d0) bpf_malloc none g).descriptor
      = some ⟨u16 (g 0 % maxinsns), none⟩ ∧
    (gen_bpf maxinsns fprog_size ad_max (Target.inPlace d0) bpf_malloc none g).insns = none ∧
    ((gen_bpf maxinsns fprog_size ad_max (Target.inPlace d0) bpf_malloc none g).descriptor.map
        sock_fprog.len = some d0.len ↔ u16 (g 0 % maxinsns) = d0.len) := by
  refine ⟨rfl, rfl, ?_⟩
  simp [gen_bpf, Outcome.descriptor]

/-- C13: with a present length pointer and both acquisitions successful,
`*addrlen` is `sizeof (struct sock_fprog)`, `*addr` is the address of the new
descriptor, whose `filter` is the new array and whose `len` is the first draw
modulo `BPF_MAXINSNS`; the array holds exactly `len` instructions. When that
length is `0` the array is empty and only the length draw has been consumed. -/
theorem gen_bpf_success_handles (maxinsns fprog_size ad_max addr addrlen p q : Nat) (g : Rng)
    (hpos : 0 < maxinsns) (hmax : maxinsns ≤ 2 ^ 16) :
    (gen_bpf maxinsns fprog_size ad_max (Target.handles addr addrlen) (some p) (some q) g).target
      = Target.handles p fprog_size ∧
    (gen_bpf maxinsns fprog_size ad_max (Target.handles addr addrlen) (some p) (some q) g).bpf
      = some (p, ⟨g 0 % maxinsns, some q⟩) ∧
    (gen_bpf maxinsns fprog_size ad_max (Target.handles addr addrlen) (some p) (some q) g).insns
      = some (q, (gen_insns ad_max (g 0 % maxinsns) (g.drop 1)).1) ∧
    (gen_insns ad_max (g 0 % maxinsns) (g.drop 1)).1.length = g 0 % maxinsns ∧
    (gen_bpf maxinsns fprog_size ad_max (Target.handles addr addrlen) (some p) (some q) g).freed
      = [] ∧
    (g 0 % maxinsns = 0 →
      (gen_bpf maxinsns fprog_size ad_max (Target.handles addr addrlen) (some p) (some q) g).insns
        = some (q, []) ∧
      (gen_bpf maxinsns fprog_size ad_max (Target.handles addr addrlen) (some p) (some q) g).rng
        = g.drop 1 ∧
      (gen_bpf maxinsns fprog_size ad_max (Target.handles addr addrlen) (some p) (some q) g).target
        = Target.handles p fprog_size) := by
  have hlen : u16 (g 0 % maxinsns) = g 0 % maxinsns :=
    Nat.mod_eq_of_lt (lt_of_lt_of_le (Nat.mod_lt _ hpos) hmax)
  have hgen : gen_bpf maxinsns fprog_size ad_max (Target.handles addr addrlen) (some p) (some q) g =
      ⟨Target.handles p fprog_size, some (p, ⟨g 0 % maxinsns, some q⟩),
        some (q, (gen_insns ad_max (g 0 % maxinsns) (g.drop 1)).1), [],
        (gen_insns ad_max (g 0 % maxinsns) (g.drop 1)).2⟩ := by
    simp only [gen_bpf, rand_fst, rand_snd, hlen]
  rw [hgen]
  refine ⟨rfl, rfl, rfl, gen_insns_length _ _ _, rfl, ?_⟩
  intro h0
  rw [h0]
  exact ⟨rfl, rfl, rfl⟩

/-- C13 at a concrete call: `BPF_MAXINSNS = 4096`, `sizeof (struct sock_fprog)
= 16`, first draw `4096` (length `0`): the descriptor at `64` is reported with
an empty array. -/
theorem gen_bpf_success_handles_witness :
    (gen_bpf 4096 16 64 (Target.handles 7 9) (some 64) (some 128) (Rng.ofList [4096, 3])).target
      = Target.handles 64 16 ∧
    (gen_bpf 4096 16 64 (Target.handles 7 9) (some 64) (some 128) (Rng.ofList [4096, 3])).bpf
      = some (64, ⟨0, some 128⟩) ∧
    (gen_bpf 4096 16 64 (Target.handles 7 9) (some 64) (some 128) (Rng.ofList [4096, 3])).insns
      = some (128, []) :=
  ⟨(gen_bpf_success_handles 4096 16 64 7 9 64 128 (Rng.ofList [4096, 3]) (by decide)
      (by decide)).1,
    (gen_bpf_success_handles 4096 16 64 7 9 64 128 (Rng.ofList [4096, 3]) (by decide)
      (by decide)).2.1,
    ((gen_bpf_success_handles 4096 16 64 7 9 64 128 (Rng.ofList [4096, 3]) (by decide)
      (by decide)).2.2.2.2.2 (by decide)).1⟩

/-! ## C14-C20: the layout of the synthesized opcode -/

/-- The class switch on the arithmetic class: the operator draw and the source
draw follow the class draw. -/
theorem fields_alu (g : Rng) (hc : drawn_class g = BPF_ALU) :
    gen_bpf_code_fields g =
      (u16 (drawn_class g ||| (bpf_pick bpf_alu_op_vars (by decide) (g 1)
          ||| bpf_pick bpf_src_vars (by decide) (g 2))), g.drop 3) := by
  simp only [drawn_class] at hc ⊢
  simp only [gen_bpf_code_fields, hc]
  simp [bpf_rand, BPF_LD, BPF_LDX, BPF_ST, BPF_STX, BPF_ALU]

/-- The class switch on the return class: one draw follows the class draw. -/
theorem fields_ret (g : Rng) (hc : drawn_class g = BPF_RET) :
    gen_bpf_code_fields g =
      (u16 (drawn_class g ||| bpf_pick bpf_ret_vars (by decide) (g 1)), g.drop 2) := by
  simp only [drawn_class] at hc ⊢
  simp only [gen_bpf_code_fields, hc]
  simp [bpf_rand, BPF_LD, BPF_LDX, BPF_ST, BPF_STX, BPF_ALU, BPF_JMP, BPF_RET]

/-- The class switch on the miscellaneous class: one draw follows the class
draw. -/
theorem fields_misc (g : Rng) (hc : drawn_class g = BPF_MISC) :
    gen_bpf_code_fields g =
      (u16 (drawn_class g ||| bpf_pick bpf_misc_vars (by decide) (g 1)), g.drop 2) := by
  simp only [drawn_class] at hc ⊢
  simp only [gen_bpf_code_fields, hc]
  simp [bpf_rand, BPF_LD, BPF_LDX, BPF_ST, BPF_STX, BPF_ALU, BPF_JMP, BPF_RET, BPF_MISC]

/-- The drawn class is one of the eight case labels of the switch. -/
theorem drawn_class_cases (g : Rng) :
    drawn_class g ∈ memory_classes ∨ drawn_class g = BPF_ALU ∨ drawn_class g = BPF_JMP ∨
      drawn_class g = BPF_RET ∨ drawn_class g = BPF_MISC := by
  have h : ∀ c ∈ bpf_class_vars,
      c ∈ memory_classes ∨ c = BPF_ALU ∨ c = BPF_JMP ∨ c = BPF_RET ∨ c = BPF_MISC := by
    decide
  exact h _ (bpf_pick_mem bpf_class_vars (by decide) (g 0))

/-- Layout of every opcode composed for a memory class. -/
theorem memory_code_layout :
    ∀ c ∈ memory_classes, ∀ s ∈ bpf_size_vars, ∀ m ∈ bpf_mode_vars, ∀ x ∈ bpf_src_vars,
      u16 (c ||| (s ||| m ||| x)) = c ||| s ||| m ||| x ∧
      BPF_CLASS (u16 (c ||| (s ||| m ||| x))) = c ∧
      u16 (c ||| (s ||| m ||| x)) ≤ 0xFF ∧
      BPF_SIZE (u16 (c ||| (s ||| m ||| x))) = s ||| x ∧
      BPF_SRC (u16 (c ||| (s ||| m ||| x))) = (s ||| x) &&& 0x08 ∧
      (BPF_SIZE (u16 (c ||| (s ||| m ||| x))) ≠ s ↔ (x = BPF_X ∧ s ≠ BPF_H)) ∧
      (BPF_SRC (u16 (c ||| (s ||| m ||| x))) ≠ x ↔ (s = BPF_H ∧ x = BPF_K)) ∧
      BPF_SIZE (u16 (c ||| (s ||| m ||| x))) ∈ [0x00, 0x08, 0x10, 0x18] := by
  decide

/-- Layout of every opcode composed for the arithmetic class. -/
theorem alu_code_layout :
    ∀ o ∈ bpf_alu_op_vars, ∀ x ∈ bpf_src_vars,
      BPF_CLASS (u16 (BPF_ALU ||| (o ||| x))) = BPF_ALU ∧
      u16 (BPF_ALU ||| (o ||| x)) ≤ 0xFF ∧
      BPF_OP (u16 (BPF_ALU ||| (o ||| x))) = o ∧
      BPF_SRC (u16 (BPF_ALU ||| (o ||| x))) = x := by
  decide

/-- Layout of every opcode composed for the jump class. -/
theorem jmp_code_layout :
    ∀ o ∈ bpf_jmp_op_vars, ∀ x ∈ bpf_src_vars,
      BPF_CLASS (u16 (BPF_JMP ||| (o ||| x))) = BPF_JMP ∧
      u16 (BPF_JMP ||| (o ||| x)) ≤ 0xFF ∧
      BPF_SRC (u16 (BPF_JMP ||| (o ||| x))) = x := by
  decide

/-- Layout of every opcode composed for the return class. -/
theorem ret_code_layout :
    ∀ v ∈ bpf_ret_vars,
      BPF_CLASS (u16 (BPF_RET ||| v)) = BPF_RET ∧
      u16 (BPF_RET ||| v) ≤ 0xFF ∧
      BPF_RVAL (u16 (BPF_RET ||| v)) = v := by
  decide

/-- Layout of every opcode composed for the miscellaneous class. -/
theorem misc_code_layout :
    ∀ v ∈ bpf_misc_vars,
      BPF_CLASS (u16 (BPF_MISC ||| v)) = BPF_MISC ∧
      u16 (BPF_MISC ||| v) ≤ 0xFF ∧
      BPF_MISCOP (u16 (BPF_MISC ||| v)) = v := by
  decide

/-- The opcode composed by the class switch carries the drawn class in its low
three bits and fits in eight bits. -/
theorem fields_class_and_bound (g : Rng) :
    BPF_CLASS (gen_bpf_code_fields g).1 = drawn_class g ∧ (gen_bpf_code_fields g).1 ≤ 0xFF := by
  rcases drawn_class_cases g with hc | hc | hc | hc | hc
  · have h := memory_code_layout _ hc _ (bpf_pick_mem bpf_size_vars (by decide) (g 1))
      _ (bpf_pick_mem bpf_mode_vars (by decide) (g 2))
      _ (bpf_pick_mem bpf_src_vars (by decide) (g 3))
    rw [fields_memory g hc]
    exact ⟨h.2.1, h.2.2.1⟩
  · have h := alu_code_layout _ (bpf_pick_mem bpf_alu_op_vars (by decide) (g 1))
      _ (bpf_pick_mem bpf_src_vars (by decide) (g 2))
    rw [fields_alu g hc, hc]
    exact ⟨h.1, h.2.1⟩
  · have h := jmp_code_layout _ (bpf_pick_mem bpf_jmp_op_vars (by decide) (g 1))
      _ (bpf_pick_mem bpf_src_vars (by decide) (g 2))
    rw [fields_jmp g hc, hc]
    exact ⟨h.1, h.2.1⟩
  · have h := ret_code_layout _ (bpf_pick_mem bpf_ret_vars (by decide) (g 1))
    rw [fields_ret g hc, hc]
    exact ⟨h.1, h.2.1⟩
  · have h := misc_code_layout _ (bpf_pick_mem bpf_misc_vars (by decide) (g 1))
    rw [fields_misc g hc, hc]
    exact ⟨h.1, h.2.1⟩

/-- OR-ing further bits onto a value keeps all of its bits. -/
theorem lor_land_self (a b : Nat) : (a ||| b) &&& a = a := by
  apply Nat.eq_of_testBit_eq
  intro i
  simp only [Nat.testBit_and, Nat.testBit_or]
  cases a.testBit i <;> cases b.testBit i <;> rfl

/-- The class bits of a value survive OR-ing further bits onto it. -/
theorem class_lor_superset (a b : Nat) :
    BPF_CLASS (a ||| b) &&& BPF_CLASS a = BPF_CLASS a := by
  apply Nat.eq_of_testBit_eq
  intro i
  simp only [BPF_CLASS, Nat.testBit_and, Nat.testBit_or]
  cases a.testBit i <;> cases b.testBit i <;> cases Nat.testBit 7 i <;> rfl

/-- The corruption step when its coin fires, on an opcode that fits in 16
bits. -/
theorem gen_bpf_code_fuzz_fires (ret : Nat) (g : Rng) (hret : ret < 2 ^ 16)
    (hf : g 0 % 10 = 0) : (gen_bpf_code_fuzz ret g).1 = ret ||| g 1 % 2 ^ 16 := by
  simp only [gen_bpf_code_fuzz, rand_fst, if_pos hf, rand_snd, drop_apply]
  exact Nat.mod_eq_of_lt (Nat.or_lt_two_pow hret (Nat.mod_lt _ (by decide)))

/-- C14: when the corruption coin does not fire, the class decoded from the
opcode returned by `gen_bpf_code` is the class that was drawn, for every class
draw and every sub-field draw; every constant of every sub-field table has its
low three bits clear. -/
theorem class_preserved_without_fuzz (g : Rng) (hf : fuzz_coin g % 10 ≠ 0) :
    BPF_CLASS (gen_bpf_code g).1 = drawn_class g ∧
    ∀ v ∈ bpf_size_vars ++ bpf_mode_vars ++ bpf_alu_op_vars ++ bpf_jmp_op_vars ++
        bpf_src_vars ++ bpf_ret_vars ++ bpf_misc_vars, v &&& 0x07 = 0 := by
  refine ⟨?_, by decide⟩
  rw [gen_bpf_code_no_fuzz g hf]
  exact (fields_class_and_bound g).1

/-- C14 at a concrete stream: `BPF_ALU` with `BPF_XOR` and `BPF_X`, no
corruption. -/
theorem class_preserved_without_fuzz_witness :
    fuzz_coin (Rng.ofList [4, 21, 21, 3]) % 10 ≠ 0 ∧
    (gen_bpf_code (Rng.ofList [4, 21, 21, 3])).1 = 0xac ∧
    BPF_CLASS (gen_bpf_code (Rng.ofList [4, 21, 21, 3])).1 = BPF_ALU :=
  ⟨by decide, by decide,
    (class_preserved_without_fuzz (Rng.ofList [4, 21, 21, 3]) (by decide)).1⟩

/-- C15: with `base` the opcode composed by the class switch and `r` the draw
that follows the corruption coin, a firing coin makes `gen_bpf_code` return
`base | (r mod 2^16)`, so `result & base = base`, the class field of the result
contains every bit of the drawn class, and a drawn `BPF_MISC` stays `BPF_MISC`;
a coin that does not fire makes it return exactly `base`. -/
theorem fuzz_only_adds_bits (g : Rng) :
    (fuzz_coin g % 10 = 0 →
      (gen_bpf_code g).1 =
          (gen_bpf_code_fields g).1 ||| (gen_bpf_code_fields g).2 1 % 2 ^ 16 ∧
      (gen_bpf_code g).1 &&& (gen_bpf_code_fields g).1 = (gen_bpf_code_fields g).1 ∧
      BPF_CLASS (gen_bpf_code g).1 &&& drawn_class g = drawn_class g ∧
      (drawn_class g = BPF_MISC → BPF_CLASS (gen_bpf_code g).1 = BPF_MISC)) ∧
    (fuzz_coin g % 10 ≠ 0 → (gen_bpf_code g).1 = (gen_bpf_code_fields g).1) := by
  constructor
  · intro hf
    have hb := fields_class_and_bound g
    have hlt : (gen_bpf_code_fields g).1 < 2 ^ 16 := lt_of_le_of_lt hb.2 (by decide)
    have hcode : (gen_bpf_code g).1 =
        (gen_bpf_code_fields g).1 ||| (gen_bpf_code_fields g).2 1 % 2 ^ 16 :=
      gen_bpf_code_fuzz_fires _ _ hlt hf
    have hsup : BPF_CLASS (gen_bpf_code g).1 &&& drawn_class g = drawn_class g := by
      rw [hcode, ← hb.1]
      exact class_lor_superset _ _
    refine ⟨hcode, ?_, hsup, ?_⟩
    · rw [hcode]
      exact lor_land_self _ _
    · intro hm
      rw [hm] at hsup
      have h7 : BPF_CLASS (gen_bpf_code g).1 &&& BPF_MISC = BPF_CLASS (gen_bpf_code g).1 := by
        simp only [BPF_CLASS, BPF_MISC, Nat.and_assoc, Nat.and_self]
      rw [← h7]
      exact hsup
  · intro hf
    rw [gen_bpf_code_no_fuzz g hf]

/-- C15 at a concrete stream: `BPF_MISC` with `BPF_TXA` (base `0x87`), the coin
`10` fires and the corruption draw is `0x10041`. -/
theorem fuzz_only_adds_bits_witness :
    fuzz_coin (Rng.ofList [7, 1, 10, 0x10041]) % 10 = 0 ∧
    (gen_bpf_code_fields (Rng.ofList [7, 1, 10, 0x10041])).1 = 0x87 ∧
    (gen_bpf_code (Rng.ofList [7, 1, 10, 0x10041])).1 = 0xc7 ∧
    BPF_CLASS (gen_bpf_code (Rng.ofList [7, 1, 10, 0x10041])).1 = BPF_MISC :=
  ⟨by decide, by decide,
    ((fuzz_only_adds_bits (Rng.ofList [7, 1, 10, 0x10041])).1 (by decide)).1.trans (by decide),
    ((fuzz_only_adds_bits (Rng.ofList [7, 1, 10, 0x10041])).1 (by decide)).2.2.2 (by decide)⟩

/-- C16: corruption can alter the class. There is a stream whose class draw
selects `BPF_LD`, whose corruption coin fires and whose corruption value has
low bits `0x05`: the returned opcode decodes as `BPF_JMP`, and the loop
iteration of `gen_bpf` fills `jt` and `jf` from the next two draws as for a
jump. -/
theorem fuzz_can_alter_class (ad_max : Nat) :
    ∃ g : Rng, drawn_class g = BPF_LD ∧ fuzz_coin g % 10 = 0 ∧
      BPF_CLASS (gen_bpf_code g).1 = BPF_JMP ∧
      BPF_CLASS (gen_bpf_code g).1 ≠ drawn_class g ∧
      (fill_jumps (set_code sock_filter.zero g).1 (set_code sock_filter.zero g).2).1.jt
        = (gen_bpf_code g).2 0 % 256 ∧
      (fill_jumps (set_code sock_filter.zero g).1 (set_code sock_filter.zero g).2).1.jf
        = (gen_bpf_code g).2 1 % 256 ∧
      (gen_insn ad_max g).1 = ⟨0x05, 44, 7, 0⟩ :=
  ⟨Rng.ofList [0, 0, 0, 0, 10, 5, 300, 7, 1, 1, 0], by decide, by decide, by decide,
    by decide, by decide, by decide, rfl⟩

/-- C17: without corruption, a drawn arithmetic class decodes to the drawn
operator (one of the eleven ALU operators) and the drawn source; a drawn jump
class decodes to the drawn source; a drawn return class decodes to the drawn
return source in `{BPF_A, BPF_K, BPF_X}`; a drawn miscellaneous class decodes
to the drawn operator in `{BPF_TAX, BPF_TXA}`. -/
theorem sub_fields_round_trip (g : Rng) (hf : fuzz_coin g % 10 ≠ 0) :
    (drawn_class g = BPF_ALU →
      BPF_OP (gen_bpf_code g).1 = bpf_pick bpf_alu_op_vars (by decide) (g 1) ∧
      BPF_OP (gen_bpf_code g).1 ∈
        [BPF_ADD, BPF_SUB, BPF_MUL, BPF_DIV, BPF_OR, BPF_AND, BPF_LSH, BPF_RSH,
         BPF_NEG, BPF_MOD, BPF_XOR] ∧
      BPF_SRC (gen_bpf_code g).1 = bpf_pick bpf_src_vars (by decide) (g 2)) ∧
    (drawn_class g = BPF_JMP →
      BPF_SRC (gen_bpf_code g).1 = bpf_pick bpf_src_vars (by decide) (g 2)) ∧
    (drawn_class g = BPF_RET →
      BPF_RVAL (gen_bpf_code g).1 = bpf_pick bpf_ret_vars (by decide) (g 1) ∧
      BPF_RVAL (gen_bpf_code g).1 ∈ [BPF_A, BPF_K, BPF_X]) ∧
    (drawn_class g = BPF_MISC →
      BPF_MISCOP (gen_bpf_code g).1 = bpf_pick bpf_misc_vars (by decide) (g 1) ∧
      BPF_MISCOP (gen_bpf_code g).1 ∈ [BPF_TAX, BPF_TXA]) := by
  rw [gen_bpf_code_no_fuzz g hf]
  refine ⟨?_, ?_, ?_, ?_⟩
  · intro hc
    have h := alu_code_layout _ (bpf_pick_mem bpf_alu_op_vars (by decide) (g 1))
      _ (bpf_pick_mem bpf_src_vars (by decide) (g 2))
    rw [fields_alu g hc, hc]
    refine ⟨h.2.2.1, ?_, h.2.2.2⟩
    rw [h.2.2.1]
    exact bpf_pick_mem bpf_alu_op_vars (by decide) (g 1)
  · intro hc
    have h := jmp_code_layout _ (bpf_pick_mem bpf_jmp_op_vars (by decide) (g 1))
      _ (bpf_pick_mem bpf_src_vars (by decide) (g 2))
    rw [fields_jmp g hc, hc]
    exact h.2.2
  · intro hc
    have h := ret_code_layout _ (bpf_pick_mem bpf_ret_vars (by decide) (g 1))
    rw [fields_ret g hc, hc]
    refine ⟨h.2.2, ?_⟩
    rw [h.2.2]
    exact bpf_pick_mem bpf_ret_vars (by decide) (g 1)
  · intro hc
    have h := misc_code_layout _ (bpf_pick_mem bpf_misc_vars (by decide) (g 1))
    rw [fields_misc g hc, hc]
    refine ⟨h.2.2, ?_⟩
    rw [h.2.2]
    exact bpf_pick_mem bpf_misc_vars (by decide) (g 1)

/-- C17 at two concrete streams: `BPF_ALU` with `BPF_XOR` and `BPF_X`, and
`BPF_RET` with `BPF_X`, both without corruption. -/
theorem sub_fields_round_trip_witness :
    (BPF_OP (gen_bpf_code (Rng.ofList [4, 21, 21, 3])).1 = BPF_XOR ∧
      BPF_SRC (gen_bpf_code (Rng.ofList [4, 21, 21, 3])).1 = BPF_X) ∧
    BPF_RVAL (gen_bpf_code (Rng.ofList [6, 2, 3])).1 = BPF_X :=
  ⟨⟨((sub_fields_round_trip (Rng.ofList [4, 21, 21, 3]) (by decide)).1 (by decide)).1,
      ((sub_fields_round_trip (Rng.ofList [4, 21, 21, 3]) (by decide)).1 (by decide)).2.2⟩,
    ((sub_fields_round_trip (Rng.ofList [6, 2, 3]) (by decide)).2.2.1 (by decide)).1⟩

/-- C18: for a drawn memory class with drawn size `s`, mode `m`, source `x` and
no corruption, the opcode is `class | s | m | x`, its size field is `s | x` and
its source field is `(s | x) & 0x08`; the decoded size differs from `s` exactly
when `x = BPF_X` and `s` is not `BPF_H`, the decoded source differs from `x`
exactly when `s = BPF_H` and `x = BPF_K`, and the values the size field takes
are exactly `0x00`, `0x08`, `0x10` and `0x18`. -/
theorem size_src_overlap (g : Rng) (hc : drawn_class g ∈ memory_classes)
    (hf : fuzz_coin g % 10 ≠ 0) :
    (gen_bpf_code g).1 =
      drawn_class g ||| bpf_pick bpf_size_vars (by decide) (g 1)
        ||| bpf_pick bpf_mode_vars (by decide) (g 2)
        ||| bpf_pick bpf_src_vars (by decide) (g 3) ∧
    BPF_SIZE (gen_bpf_code g).1 =
      bpf_pick bpf_size_vars (by decide) (g 1) ||| bpf_pick bpf_src_vars (by decide) (g 3) ∧
    BPF_SRC (gen_bpf_code g).1 =
      (bpf_pick bpf_size_vars (by decide) (g 1) ||| bpf_pick bpf_src_vars (by decide) (g 3))
        &&& 0x08 ∧
    (BPF_SIZE (gen_bpf_code g).1 ≠ bpf_pick bpf_size_vars (by decide) (g 1) ↔
      (bpf_pick bpf_src_vars (by decide) (g 3) = BPF_X ∧
        bpf_pick bpf_size_vars (by decide) (g 1) ≠ BPF_H)) ∧
    (BPF_SRC (gen_bpf_code g).1 ≠ bpf_pick bpf_src_vars (by decide) (g 3) ↔
      (bpf_pick bpf_size_vars (by decide) (g 1) = BPF_H ∧
        bpf_pick bpf_src_vars (by decide) (g 3) = BPF_K)) ∧
    BPF_SIZE (gen_bpf_code g).1 ∈ [0x00, 0x08, 0x10, 0x18] ∧
    (∀ v ∈ [0x00, 0x08, 0x10, 0x18], ∃ g0 : Rng, drawn_class g0 ∈ memory_classes ∧
      fuzz_coin g0 % 10 ≠ 0 ∧ BPF_SIZE (gen_bpf_code g0).1 = v) := by
  have h := memory_code_layout _ hc _ (bpf_pick_mem bpf_size_vars (by decide) (g 1))
    _ (bpf_pick_mem bpf_mode_vars (by decide) (g 2))
    _ (bpf_pick_mem bpf_src_vars (by decide) (g 3))
  rw [gen_bpf_code_no_fuzz g hf, fields_memory g hc]
  refine ⟨h.1, h.2.2.2.1, h.2.2.2.2.1, h.2.2.2.2.2.1, h.2.2.2.2.2.2.1, h.2.2.2.2.2.2.2, ?_⟩
  intro v hv
  have hv' : v = 0x00 ∨ v = 0x08 ∨ v = 0x10 ∨ v = 0x18 := by simpa using hv
  rcases hv' with rfl | rfl | rfl | rfl
  · exact ⟨Rng.ofList [0, 0, 0, 0, 1], by decide, by decide, by decide⟩
  · exact ⟨Rng.ofList [0, 1, 1, 1, 1], by decide, by decide, by decide⟩
  · exact ⟨Rng.ofList [0, 2, 2, 2, 1], by decide, by decide, by decide⟩
  · exact ⟨Rng.ofList [0, 5, 5, 5, 1], by decide, by decide, by decide⟩

/-- C18 at two concrete streams: `BPF_W` with `BPF_X` decodes as size `BPF_H`
(draws `6, 0, 1` after class `BPF_LDX`), and `BPF_H` with `BPF_K` decodes as
source `BPF_X` (draws `1, 0, 0` after class `BPF_ST`). -/
theorem size_src_overlap_witness :
    (gen_bpf_code (Rng.ofList [1, 6, 0, 1, 3])).1 = 0x09 ∧
    BPF_SIZE (gen_bpf_code (Rng.ofList [1, 6, 0, 1, 3])).1 = BPF_H ∧
    BPF_SRC (gen_bpf_code (Rng.ofList [2, 1, 0, 0, 3])).1 = BPF_X :=
  ⟨(size_src_overlap (Rng.ofList [1, 6, 0, 1, 3]) (by decide) (by decide)).1,
    (size_src_overlap (Rng.ofList [1, 6, 0, 1, 3]) (by decide) (by decide)).2.1,
    (size_src_overlap (Rng.ofList [2, 1, 0, 0, 3]) (by decide) (by decide)).2.2.1⟩

/-- A value below `2^8` has no bit in the high byte of a 16-bit word. -/
theorem land_high_byte (c : Nat) (h : c < 2 ^ 8) : c &&& 0xFF00 = 0 := by
  apply Nat.eq_of_testBit_eq
  intro i
  simp only [Nat.testBit_and, Nat.zero_testBit]
  by_cases hi : i < 8
  · have h0 : Nat.testBit 0xFF00 i = false := by
      interval_cases i <;> rfl
    rw [h0, Bool.and_false]
  · have h0 : c.testBit i = false :=
      Nat.testBit_lt_two_pow (lt_of_lt_of_le h (Nat.pow_le_pow_right (by decide) (not_lt.mp hi)))
    rw [h0, Bool.false_and]

/-- C19: when the corruption coin does not fire, the opcode returned by
`gen_bpf_code` is at most `0xFF` and its bits 8..15 are zero, for every class
and sub-field draw; hence an opcode with a bit set in its high byte comes from
a firing corruption coin. -/
theorem code_fits_in_byte (g : Rng) :
    (fuzz_coin g % 10 ≠ 0 →
      (gen_bpf_code g).1 ≤ 0xFF ∧ (gen_bpf_code g).1 &&& 0xFF00 = 0) ∧
    ((gen_bpf_code g).1 &&& 0xFF00 ≠ 0 → fuzz_coin g % 10 = 0) := by
  have hbyte : ∀ c < 256, c &&& 0xFF00 = 0 := fun c hc => land_high_byte c hc
  have h1 : fuzz_coin g % 10 ≠ 0 →
      (gen_bpf_code g).1 ≤ 0xFF ∧ (gen_bpf_code g).1 &&& 0xFF00 = 0 := by
    intro hf
    have hb := (fields_class_and_bound g).2
    rw [gen_bpf_code_no_fuzz g hf]
    exact ⟨hb, hbyte _ (Nat.lt_succ_of_le hb)⟩
  refine ⟨h1, ?_⟩
  intro hne
  by_contra hf
  exact hne (h1 hf).2

/-- C19 at two concrete streams: `BPF_LD | BPF_B | BPF_MSH | BPF_X = 0xb8`
without corruption, and the same opcode with corruption value `0x100`. -/
theorem code_fits_in_byte_witness :
    ((gen_bpf_code (Rng.ofList [0, 5, 5, 5, 1])).1 ≤ 0xFF ∧
      (gen_bpf_code (Rng.ofList [0, 5, 5, 5, 1])).1 &&& 0xFF00 = 0) ∧
    (gen_bpf_code (Rng.ofList [0, 5, 5, 5, 10, 0x100])).1 = 0x1b8 ∧
    fuzz_coin (Rng.ofList [0, 5, 5, 5, 10, 0x100]) % 10 = 0 :=
  ⟨(code_fits_in_byte (Rng.ofList [0, 5, 5, 5, 1])).1 (by decide), by decide,
    (code_fits_in_byte (Rng.ofList [0, 5, 5, 5, 10, 0x100])).2 (by decide)⟩

/-- C20: for every class draw the element selected from `bpf_class_vars` is one
of the eight case labels `0x00..0x07`, so one of the case conditions of the
switch holds and its default branch is never taken; and for every table and
every draw the index `draw mod table size` is within the table, where the
lookup returns the element `bpf_rand` selects. -/
theorem default_branch_unreachable (g : Rng) :
    (bpf_rand bpf_class_vars (by decide) g).1 ∈
      [BPF_LD, BPF_LDX, BPF_ST, BPF_STX, BPF_ALU, BPF_JMP, BPF_RET, BPF_MISC] ∧
    (bpf_rand bpf_class_vars (by decide) g).1 ≤ 0x07 ∧
    ((bpf_rand bpf_class_vars (by decide) g).1 = BPF_LD ∨
      (bpf_rand bpf_class_vars (by decide) g).1 = BPF_LDX ∨
      (bpf_rand bpf_class_vars (by decide) g).1 = BPF_ST ∨
      (bpf_rand bpf_class_vars (by decide) g).1 = BPF_STX ∨
      (bpf_rand bpf_class_vars (by decide) g).1 = BPF_ALU ∨
      (bpf_rand bpf_class_vars (by decide) g).1 = BPF_JMP ∨
      (bpf_rand bpf_class_vars (by decide) g).1 = BPF_RET ∨
      (bpf_rand bpf_class_vars (by decide) g).1 = BPF_MISC) ∧
    (∀ vars ∈ [bpf_class_vars, bpf_size_vars, bpf_mode_vars, bpf_alu_op_vars,
        bpf_jmp_op_vars, bpf_src_vars, bpf_ret_vars, bpf_misc_vars],
      ∀ r : Nat, r % vars.length < vars.length) ∧
    (∀ (vars : List Nat) (h : 0 < vars.length) (r : Nat),
      vars[r % vars.length]? = some (bpf_pick vars h r)) := by
  have hall : ∀ c ∈ bpf_class_vars,
      c ∈ [BPF_LD, BPF_LDX, BPF_ST, BPF_STX, BPF_ALU, BPF_JMP, BPF_RET, BPF_MISC] ∧
      c ≤ 0x07 ∧
      (c = BPF_LD ∨ c = BPF_LDX ∨ c = BPF_ST ∨ c = BPF_STX ∨ c = BPF_ALU ∨ c = BPF_JMP ∨
        c = BPF_RET ∨ c = BPF_MISC) := by
    decide
  have hc := hall _ (bpf_pick_mem bpf_class_vars (by decide) (g 0))
  have hlen : ∀ vars ∈ [bpf_class_vars, bpf_size_vars, bpf_mode_vars, bpf_alu_op_vars,
      bpf_jmp_op_vars, bpf_src_vars, bpf_ret_vars, bpf_misc_vars], 0 < vars.length := by
    decide
  refine ⟨hc.1, hc.2.1, hc.2.2, ?_, ?_⟩
  · intro vars hv r
    exact Nat.mod_lt r (hlen vars hv)
  · intro vars h r
    simp only [bpf_pick]
    exact List.getElem?_eq_getElem (Nat.mod_lt r h)

end Bpf
